import Mathlib

/-!
Verification of the trading_binary core against its specification.

The Python source is shallowly embedded: prices, quantities and costs are
modelled as rationals (`ℚ`), timestamps as rationals (seconds on one UTC
clock), mutable objects as explicit state records threaded through the
functions, and fallible calls as `Option`/`Except` results.

Source files embedded here:
  - src/market/polymarket_api.py, src/market/simulator.py : `OrderBook`
  - src/core/position.py        : `Position`, `PairPosition`
  - src/monitor/price_monitor.py: `PriceMonitor`, `check_price`
  - src/execution/order_manager.py : `Order`, `OrderManager`
  - src/risk/stop_conditions.py : `RiskController`, `check_stop_conditions`
-/

/-- One level of an order book: `OrderBookLevel` from
src/market/polymarket_api.py (price and resting quantity). -/
structure OrderBookLevel where
  price : ℚ
  qty : ℚ
deriving DecidableEq

/-- Order-book snapshot: `OrderBook` from src/market/polymarket_api.py
(the simulator's class in src/market/simulator.py is field-for-field the
same; the `timestamp` field is dropped, no embedded code reads it). -/
structure OrderBook where
  yes_bids : List OrderBookLevel
  yes_asks : List OrderBookLevel
  no_bids : List OrderBookLevel
  no_asks : List OrderBookLevel
deriving DecidableEq

/-- `OrderBook.yes_mid_price`: midpoint of best bid and best ask when both
queues are non-empty, else 0.5. -/
def OrderBook.yes_mid_price (ob : OrderBook) : ℚ :=
  match ob.yes_bids, ob.yes_asks with
  | b :: _, a :: _ => (b.price + a.price) / 2
  | _, _ => 1/2

/-- `OrderBook.no_mid_price`: midpoint of best bid and best ask when both
queues are non-empty, else 0.5. -/
def OrderBook.no_mid_price (ob : OrderBook) : ℚ :=
  match ob.no_bids, ob.no_asks with
  | b :: _, a :: _ => (b.price + a.price) / 2
  | _, _ => 1/2

/-- Python's `str.upper()` (character-wise ASCII uppercasing; every side
string in the program is ASCII). -/
def str_upper (s : String) : String := ⟨s.data.map Char.toUpper⟩

/-- `OrderBook.get_best_ask(side)`: head of the ask queue for the
case-normalized side, `none` for an empty queue or an unknown side. -/
def OrderBook.get_best_ask (ob : OrderBook) (side : String) : Option OrderBookLevel :=
  if str_upper side = "YES" then ob.yes_asks.head?
  else if str_upper side = "NO" then ob.no_asks.head?
  else none

/-- Per-side holding: `Position` from src/core/position.py. -/
structure Position where
  qty : ℚ
  cost : ℚ
deriving DecidableEq

/-- `Position.avg_price`: cost/qty, or the neutral reference 0.5 when the
side is empty (qty = 0). -/
def Position.avg_price (p : Position) : ℚ :=
  if p.qty = 0 then 1/2 else p.cost / p.qty

/-- `Position.add_position(qty, price)`: cost += price*qty; qty += qty. -/
def Position.add_position (p : Position) (qty price : ℚ) : Position :=
  { qty := p.qty + qty, cost := p.cost + price * qty }

/-- Two-sided holding: `PairPosition` from src/core/position.py. -/
structure PairPosition where
  yes : Position
  no : Position
deriving DecidableEq

/-- `PairPosition.total_cost`: sum of both sides' costs. -/
def PairPosition.total_cost (p : PairPosition) : ℚ :=
  p.yes.cost + p.no.cost

/-- `PairPosition.min_qty`: the scarcer side's quantity. -/
def PairPosition.min_qty (p : PairPosition) : ℚ :=
  min p.yes.qty p.no.qty

/-- `PairPosition.pair_cost`: sum of the two average prices. -/
def PairPosition.pair_cost (p : PairPosition) : ℚ :=
  p.yes.avg_price + p.no.avg_price

/-- `PairPosition.is_profitable`: false when `min_qty = 0`, otherwise
`min_qty > total_cost`. -/
def PairPosition.is_profitable (p : PairPosition) : Bool :=
  if p.min_qty = 0 then false
  else decide (p.total_cost < p.min_qty)

/-- Hypothetical average of one side after adding a fill (qty, price); the
claims about `can_buy` and `calculate_target_price` are phrased with it. -/
def post_fill_avg (pos : Position) (qty price : ℚ) : ℚ :=
  (pos.cost + price * qty) / (pos.qty + qty)

/-- Body of the admission predicate shared by the two valid-side branches
of `PairPosition.can_buy`: new average of the bought side (the fill price
itself when the post-fill quantity is not positive) plus the opposite
side's current average must be strictly below 0.98. -/
def can_buy_calc (current_pos : Position) (opposite_avg qty price : ℚ) : Bool :=
  let new_cost := current_pos.cost + price * qty
  let new_qty := current_pos.qty + qty
  let new_avg := if 0 < new_qty then new_cost / new_qty else price
  decide (new_avg + opposite_avg < 98/100)

/-- `PairPosition.can_buy(side, qty, price)`: admission check; raises
`ValueError` (modelled as `Except.error`) for a side outside YES/NO after
case normalization. -/
def PairPosition.can_buy (p : PairPosition) (side : String) (qty price : ℚ) :
    Except String Bool :=
  if str_upper side = "YES" then
    Except.ok (can_buy_calc p.yes p.no.avg_price qty price)
  else if str_upper side = "NO" then
    Except.ok (can_buy_calc p.no p.yes.avg_price qty price)
  else
    Except.error ("Invalid side: " ++ side)

/-- Monitor state: `PriceMonitor` from src/monitor/price_monitor.py
(the callback is omitted: it does not influence the returned side or the
stored prices). -/
structure PriceMonitor where
  entry_price_min : ℚ
  entry_price_max : ℚ
  last_yes_price : ℚ
  last_no_price : ℚ
deriving DecidableEq

/-- `PriceMonitor.__init__`: band bounds default to [0.35, 0.50] and both
last-observed mid-prices start at 0.5. -/
def PriceMonitor.new (entry_price_min : ℚ := 35/100) (entry_price_max : ℚ := 1/2) :
    PriceMonitor :=
  { entry_price_min := entry_price_min
    entry_price_max := entry_price_max
    last_yes_price := 1/2
    last_no_price := 1/2 }

/-- `PriceMonitor.check_price(order_book)`: returns "YES" when the YES mid
is inside the band and the stored last YES mid is outside it, else the
same test for NO, else updates both stored mid-prices and returns nothing.
On a returning (firing) tick the stored prices are left untouched, since
the source returns before the update statements. -/
def check_price (m : PriceMonitor) (order_book : OrderBook) :
    Option String × PriceMonitor :=
  let yes_price := order_book.yes_mid_price
  let no_price := order_book.no_mid_price
  if m.entry_price_min ≤ yes_price ∧ yes_price ≤ m.entry_price_max ∧
      (m.last_yes_price < m.entry_price_min ∨ m.entry_price_max < m.last_yes_price) then
    (some "YES", m)
  else if m.entry_price_min ≤ no_price ∧ no_price ≤ m.entry_price_max ∧
      (m.last_no_price < m.entry_price_min ∨ m.entry_price_max < m.last_no_price) then
    (some "NO", m)
  else
    (none, { m with last_yes_price := yes_price, last_no_price := no_price })

/-- Order lifecycle states: `OrderStatus` from src/execution/order_manager.py. -/
inductive OrderStatus where
  | PENDING
  | FILLED
  | CANCELLED
deriving DecidableEq

/-- Simulated order: `Order` from src/execution/order_manager.py (the
wall-clock `timestamp` and the constant `is_simulated = True` flag are
dropped; no embedded code branches on them). -/
structure Order where
  side : String
  price : ℚ
  qty : ℚ
  status : OrderStatus := OrderStatus.PENDING
  filled_qty : ℚ := 0
  filled_price : ℚ := 0
deriving DecidableEq

/-- Mutable state of `OrderManager` from src/execution/order_manager.py:
the shared position ledger, the order lists and the cached order-book
snapshot (`api` and `condition_id` only matter for the on-demand fetch,
which is modelled by an explicit `api_orderbook` argument below). -/
structure OrderManagerState where
  position : PairPosition
  pending_orders : List Order
  filled_orders : List Order
  trade_history : List Order
  current_orderbook : Option OrderBook
deriving DecidableEq

/-- `OrderManager._try_fill_order(order)`: a PENDING order whose price is
at or above the current best ask of its side fills for
min(order.qty, best-ask qty) at the best ask price, the ledger side named
"YES" (any other side string falls to the NO branch, as in the source's
if/else) receives the fill, and the order moves from the pending list to
the filled list and the trade history. The source mutates the one shared
`Order` object and then removes it from the pending list; here the removal
is `List.erase` of the order as appended by `place_limit_order`. -/
def try_fill_order (s : OrderManagerState) (order : Order) :
    OrderManagerState × Order :=
  if order.status ≠ OrderStatus.PENDING then (s, order)
  else
    match s.current_orderbook with
    | none => (s, order)
    | some ob =>
      match ob.get_best_ask order.side with
      | none => (s, order)
      | some best_ask =>
        if best_ask.price ≤ order.price then
          let filled : Order :=
            { order with
                status := OrderStatus.FILLED
                filled_qty := min order.qty best_ask.qty
                filled_price := best_ask.price }
          let position :=
            if order.side = "YES" then
              { s.position with
                  yes := s.position.yes.add_position filled.filled_qty filled.filled_price }
            else
              { s.position with
                  no := s.position.no.add_position filled.filled_qty filled.filled_price }
          ({ s with
              position := position
              pending_orders := s.pending_orders.erase order
              filled_orders := s.filled_orders ++ [filled]
              trade_history := s.trade_history ++ [filled] }, filled)
        else (s, order)

/-- `OrderManager.place_limit_order(side, qty, max_price)`: when no
snapshot is cached, the on-demand API fetch is modelled by the
`api_orderbook` argument; with no snapshot at all, or no resting ask on
the side, or `max_price` strictly below the best ask, no order is placed.
Otherwise a PENDING order at the best ask price is appended and
immediately run through `try_fill_order`; the call returns the (mutated)
order. -/
def place_limit_order (s₀ : OrderManagerState) (api_orderbook : Option OrderBook)
    (side : String) (qty max_price : ℚ) : Option Order × OrderManagerState :=
  let s := if s₀.current_orderbook.isNone
    then { s₀ with current_orderbook := api_orderbook } else s₀
  match s.current_orderbook with
  | none => (none, s)
  | some ob =>
    match ob.get_best_ask side with
    | none => (none, s)
    | some best_ask =>
      if max_price < best_ask.price then (none, s)
      else
        let order : Order := { side := side, price := best_ask.price, qty := qty }
        let s₁ := { s with pending_orders := s.pending_orders ++ [order] }
        let fr := try_fill_order s₁ order
        (some fr.2, fr.1)

/-- `OrderManager.calculate_target_price(side, opposite_avg)`: the
empty-side bound 0.98 − opposite_avg, reduced by the fixed 5% safety
margin when the side already has quantity. -/
def calculate_target_price (position : PairPosition) (side : String)
    (opposite_avg : ℚ) : ℚ :=
  let current_pos := if side = "YES" then position.yes else position.no
  let max_new_avg := 98/100 - opposite_avg
  if current_pos.qty = 0 then max_new_avg
  else max_new_avg * (95/100)

/-- Structured stop reason: each constructor is one `reason`/`details`
pair produced by `RiskController.check_stop_conditions`, carrying exactly
the numbers the source interpolates into the reason string and stores in
the details dict. -/
inductive StopReason where
  | profit_locked (min_qty total_cost profit : ℚ)
  | unhedged_timeout (side : String) (duration_seconds max_allowed : ℚ)
  | pair_cost_too_high (pair_cost max_allowed yes_avg no_avg : ℚ)
  | max_capital_exceeded (total_cost max_allowed : ℚ)
  | max_pos_exceeded (side : String) (cost max_allowed : ℚ)
  | settlement_time_near (time_to_settlement buffer_seconds : ℚ)
deriving DecidableEq

/-- `StopConditionResult` from src/risk/stop_conditions.py: the pass
result carries `reason = none`. -/
structure StopConditionResult where
  should_stop : Bool
  reason : Option StopReason
deriving DecidableEq

/-- Configuration of `RiskController.__init__` with the source's default
values. -/
structure RiskConfig where
  max_total_capital : ℚ := 1000
  max_pos_per_window : ℚ := 200
  max_unhedged_seconds : ℚ := 120
  max_pair_cost : ℚ := 98/100
  max_loss_ratio : ℚ := 1/10
  settlement_buffer_seconds : ℚ := 60
  pair_cost_check_delay_seconds : ℚ := 60
deriving DecidableEq

/-- A `RiskController` built with all-default arguments. -/
def default_risk_config : RiskConfig := {}

/-- Mutable clock fields of `RiskController`: unhedged-exposure start time
and last recorded unhedged side, both initially absent. -/
structure RiskState where
  unhedged_start_time : Option ℚ := none
  last_unhedged_side : Option String := none
deriving DecidableEq

/-- Clock update of `check_stop_conditions` step 2 (source lines 88-94):
on a side change the clock restarts at `now` and the side is recorded; a
matching side with no running clock starts it at `now`; otherwise the
state is untouched. -/
def update_unhedged_clock (st : RiskState) (current_side : String) (now : ℚ) :
    RiskState :=
  if st.last_unhedged_side ≠ some current_side then
    { unhedged_start_time := some now, last_unhedged_side := some current_side }
  else if st.unhedged_start_time = none then
    { unhedged_start_time := some now, last_unhedged_side := st.last_unhedged_side }
  else st

/-- Conditions 3-5 of `check_stop_conditions` (total capital, per-side
window caps checked YES first, settlement proximity), which run after the
hedged/unhedged-specific checks fall through. -/
def check_remaining (cfg : RiskConfig) (position : PairPosition)
    (market_end_time : Option ℚ) (now : ℚ) : StopConditionResult :=
  if cfg.max_total_capital < position.total_cost then
    { should_stop := true
      reason := some (StopReason.max_capital_exceeded position.total_cost
        cfg.max_total_capital) }
  else if cfg.max_pos_per_window < position.yes.cost then
    { should_stop := true
      reason := some (StopReason.max_pos_exceeded "YES" position.yes.cost
        cfg.max_pos_per_window) }
  else if cfg.max_pos_per_window < position.no.cost then
    { should_stop := true
      reason := some (StopReason.max_pos_exceeded "NO" position.no.cost
        cfg.max_pos_per_window) }
  else
    match market_end_time with
    | some end_time =>
      if end_time - now ≤ cfg.settlement_buffer_seconds then
        { should_stop := true
          reason := some (StopReason.settlement_time_near (end_time - now)
            cfg.settlement_buffer_seconds) }
      else { should_stop := false, reason := none }
    | none => { should_stop := false, reason := none }

/-- `RiskController.check_stop_conditions(position, orderbook,
market_end_time)` with `now` the single UTC clock reading of the tick
(the source calls `datetime.now(timezone.utc)` up to three times within
microseconds; one reading per tick models the one-clock-source rule).
Returns the result together with the controller's updated clock state. -/
def check_stop_conditions (cfg : RiskConfig) (st : RiskState)
    (position : PairPosition) (orderbook : Option OrderBook)
    (market_end_time : Option ℚ) (now : ℚ) :
    StopConditionResult × RiskState :=
  if position.is_profitable then
    ({ should_stop := true
       reason := some (StopReason.profit_locked position.min_qty
         position.total_cost (position.min_qty - position.total_cost)) }, st)
  else if (0 < position.yes.qty ∧ ¬ 0 < position.no.qty) ∨
      (0 < position.no.qty ∧ ¬ 0 < position.yes.qty) then
    let current_side := if 0 < position.yes.qty then "YES" else "NO"
    let st' := update_unhedged_clock st current_side now
    (match st'.unhedged_start_time with
     | some t0 =>
       if cfg.max_unhedged_seconds < now - t0 then
         { should_stop := true
           reason := some (StopReason.unhedged_timeout current_side (now - t0)
             cfg.max_unhedged_seconds) }
       else check_remaining cfg position market_end_time now
     | none => check_remaining cfg position market_end_time now, st')
  else
    (if orderbook.isSome ∧ 0 < position.yes.qty ∧ 0 < position.no.qty then
       if cfg.max_pair_cost < position.yes.avg_price + position.no.avg_price then
         { should_stop := true
           reason := some (StopReason.pair_cost_too_high
             (position.yes.avg_price + position.no.avg_price) cfg.max_pair_cost
             position.yes.avg_price position.no.avg_price) }
       else check_remaining cfg position market_end_time now
     else check_remaining cfg position market_end_time now,
     { unhedged_start_time := none, last_unhedged_side := none })

/-- Case normalization is the identity on the canonical side strings. -/
lemma str_upper_yes : str_upper "YES" = "YES" := rfl

/-- Case normalization is the identity on the canonical side strings. -/
lemma str_upper_no : str_upper "NO" = "NO" := rfl

/-- Best ask for side "YES" is the head of the YES ask queue. -/
lemma get_best_ask_yes (ob : OrderBook) :
    ob.get_best_ask "YES" = ob.yes_asks.head? := by
  unfold OrderBook.get_best_ask
  rw [str_upper_yes, if_pos rfl]

/-- Best ask for side "NO" is the head of the NO ask queue. -/
lemma get_best_ask_no (ob : OrderBook) :
    ob.get_best_ask "NO" = ob.no_asks.head? := by
  unfold OrderBook.get_best_ask
  rw [str_upper_no, if_neg (by decide), if_pos rfl]

/-- Best ask for any side whose normalization is neither "YES" nor "NO"
is absent. -/
lemma get_best_ask_other (ob : OrderBook) (side : String)
    (h1 : str_upper side ≠ "YES") (h2 : str_upper side ≠ "NO") :
    ob.get_best_ask side = none := by
  unfold OrderBook.get_best_ask
  rw [if_neg h1, if_neg h2]

/-- Core admission-boundary equivalence: for a positive added quantity on
a side with non-negative quantity, `can_buy_calc` decides exactly
`post_fill_avg + opposite < 0.98`. -/
lemma can_buy_calc_iff (cur : Position) (opp qty price : ℚ) (hcq : 0 ≤ cur.qty)
    (hq : 0 < qty) :
    (can_buy_calc cur opp qty price = false ↔
      98/100 ≤ post_fill_avg cur qty price + opp) ∧
    (can_buy_calc cur opp qty price = true ↔
      post_fill_avg cur qty price + opp < 98/100) := by
  have hpos : 0 < cur.qty + qty := by linarith
  simp only [can_buy_calc, post_fill_avg]
  rw [if_pos hpos]
  constructor
  · simp [decide_eq_false_iff_not, not_lt]
  · simp [decide_eq_true_eq]

/-- C5: for every side in YES/NO, quantity q > 0 and price p in [0,1]
(and a well-formed ledger with non-negative side quantities),
`can_buy(side, q, p)` returns false exactly when the hypothetical
post-fill average of that side plus the opposite side's current average
(which `avg_price` defaults to 0.5 on an empty side) is at least 0.98,
and returns true exactly when the sum is strictly below 0.98. -/
theorem C5_can_buy_strict_boundary (p : PairPosition) (side : String) (qty price : ℚ)
    (hside : side = "YES" ∨ side = "NO") (hq : 0 < qty)
    (hp0 : 0 ≤ price) (hp1 : price ≤ 1)
    (hyq : 0 ≤ p.yes.qty) (hnq : 0 ≤ p.no.qty) :
    (p.can_buy side qty price = Except.ok false ↔
      98/100 ≤ post_fill_avg (if side = "YES" then p.yes else p.no) qty price +
        (if side = "YES" then p.no else p.yes).avg_price) ∧
    (p.can_buy side qty price = Except.ok true ↔
      post_fill_avg (if side = "YES" then p.yes else p.no) qty price +
        (if side = "YES" then p.no else p.yes).avg_price < 98/100) := by
  rcases hside with h | h <;> subst h
  · unfold PairPosition.can_buy
    rw [str_upper_yes, if_pos rfl]
    split_ifs with hstr
    · have hk := can_buy_calc_iff p.yes p.no.avg_price qty price hyq hq
      constructor
      · rw [← hk.1]; simp
      · rw [← hk.2]; simp
    · exact absurd rfl hstr
  · unfold PairPosition.can_buy
    rw [str_upper_no, if_neg (by decide), if_pos rfl]
    split_ifs with hstr
    · exact absurd hstr (by decide)
    · have hk := can_buy_calc_iff p.no p.yes.avg_price qty price hnq hq
      constructor
      · rw [← hk.1]; simp
      · rw [← hk.2]; simp

/-- Witness for C5 at spec scenario 3: buying YES 100 @ 0.60 against an
empty position (opposite NO average defaults to 0.5) is rejected, since
0.60 + 0.5 ≥ 0.98. -/
theorem C5_witness :
    (⟨⟨0, 0⟩, ⟨0, 0⟩⟩ : PairPosition).can_buy "YES" 100 (3/5) = Except.ok false := by
  refine ((C5_can_buy_strict_boundary ⟨⟨0, 0⟩, ⟨0, 0⟩⟩ "YES" 100 (3/5)
    (Or.inl rfl) (by norm_num) (by norm_num) (by norm_num) (by norm_num)
    (by norm_num)).1).mpr ?_
  norm_num [post_fill_avg, Position.avg_price]

/-- C10: a fresh monitor stores 0.5 as both last-observed mid-prices; the
stored prices change only on ticks where no side fires; hence against a
band containing 0.5 the very first `check_price` call returns nothing,
whatever the order book says. -/
theorem C10_monitor_initial_neutral (mn mx : ℚ) (ob : OrderBook) :
    ((PriceMonitor.new mn mx).last_yes_price = 1/2 ∧
      (PriceMonitor.new mn mx).last_no_price = 1/2) ∧
    (∀ (m : PriceMonitor) (b : OrderBook) (side : String),
      (check_price m b).1 = some side → (check_price m b).2 = m) ∧
    (∀ (m : PriceMonitor) (b : OrderBook),
      (check_price m b).1 = none →
        (check_price m b).2 =
          { m with last_yes_price := b.yes_mid_price, last_no_price := b.no_mid_price }) ∧
    (mn ≤ 1/2 → 1/2 ≤ mx → (check_price (PriceMonitor.new mn mx) ob).1 = none) := by
  refine ⟨⟨rfl, rfl⟩, ?_, ?_, ?_⟩
  · intro m b side h
    simp only [check_price] at h ⊢
    split_ifs at h ⊢ <;> first | rfl | exact Option.noConfusion h
  · intro m b h
    simp only [check_price] at h ⊢
    split_ifs at h ⊢ <;> first | rfl | exact Option.noConfusion h
  · intro h1 h2
    have hy' : ¬(mn ≤ ob.yes_mid_price ∧ ob.yes_mid_price ≤ mx ∧
        ((1:ℚ)/2 < mn ∨ mx < (1:ℚ)/2)) := by
      rintro ⟨-, -, h | h⟩ <;> linarith
    have hn' : ¬(mn ≤ ob.no_mid_price ∧ ob.no_mid_price ≤ mx ∧
        ((1:ℚ)/2 < mn ∨ mx < (1:ℚ)/2)) := by
      rintro ⟨-, -, h | h⟩ <;> linarith
    simp only [check_price, PriceMonitor.new]
    rw [if_neg hy', if_neg hn']

/-- Witness for C10 with the default band [0.35, 0.50] (which contains
0.5) and an order book whose YES mid-price 0.45 is already inside the
band: the first call does not trigger. -/
theorem C10_witness :
    (check_price (PriceMonitor.new (35/100) (1/2))
      ⟨[⟨44/100, 1⟩], [⟨46/100, 1⟩], [], []⟩).1 = none :=
  (C10_monitor_initial_neutral (35/100) (1/2)
    ⟨[⟨44/100, 1⟩], [⟨46/100, 1⟩], [], []⟩).2.2.2 (by norm_num) (by norm_num)

/-- Order book with the given YES mid-price (bid one cent below, ask one
cent above) and an empty NO book (NO mid defaults to 0.5). -/
def ob_yes_mid (p : ℚ) : OrderBook :=
  ⟨[⟨p - 1/100, 1⟩], [⟨p + 1/100, 1⟩], [], []⟩

/-- C1 (divergence witness): with the default band [0.35, 0.50], feeding
YES mid 0.55 (tick 1, outside), then 0.45 (tick 2, fires on entry), then
0.45 again (tick 3), the monitor fires YES on tick 3 as well — although
the YES mid-price was inside the band on the previous tick and is
unchanged — because the firing tick 2 skipped the last-price update. -/
theorem C1_monitor_re_fires_inside_band :
    (check_price (check_price (PriceMonitor.new) (ob_yes_mid (11/20))).2
        (ob_yes_mid (9/20))).1 = some "YES" ∧
    (35/100 : ℚ) ≤ (ob_yes_mid (9/20)).yes_mid_price ∧
    (ob_yes_mid (9/20)).yes_mid_price ≤ 1/2 ∧
    (check_price (check_price (check_price (PriceMonitor.new) (ob_yes_mid (11/20))).2
        (ob_yes_mid (9/20))).2 (ob_yes_mid (9/20))).1 = some "YES" := by
  norm_num [check_price, PriceMonitor.new, ob_yes_mid, OrderBook.yes_mid_price,
    OrderBook.no_mid_price]

/-- Margin arithmetic behind `calculate_target_price` on a non-empty
side: if the side currently holds quantity t > 0 at cost c ≥ 0, the
opposite reference average o is non-negative, and the pre-fill admission
invariant c/t + o < 0.98 holds, then filling any positive quantity q at
the price (0.98 − o)·0.95 keeps the post-fill average plus o strictly
below 0.98. -/
lemma target_price_margin_preserves (c t o q : ℚ) (ht : 0 < t) (hc : 0 ≤ c)
    (ho : 0 ≤ o) (hq : 0 < q) (hpre : c / t + o < 98/100) :
    (c + ((98/100 - o) * (95/100)) * q) / (t + q) + o < 98/100 := by
  have h1 : c / t < 98/100 - o := by linarith
  have h2 : c < (98/100 - o) * t := (div_lt_iff ht).mp h1
  have hm : 0 < 98/100 - o := by
    have hct : 0 ≤ c / t := div_nonneg hc ht.le
    linarith
  have htq : 0 < t + q := by linarith
  have goal1 : (c + ((98/100 - o) * (95/100)) * q) / (t + q) < 98/100 - o := by
    rw [div_lt_iff htq]
    nlinarith [mul_pos hm hq]
  linarith

/-- C2 (amended): for a side with existing quantity > 0, non-negative
cost, an opposite reference average in [0,1], and a position that still
satisfies the admission invariant before the fill (side average +
opposite_avg < 0.98), filling any positive quantity at the price returned
by `calculate_target_price` keeps the post-fill side average plus
opposite_avg strictly below 0.98. -/
theorem C2_target_price_preserves_invariant (pos : PairPosition) (side : String)
    (opposite_avg q : ℚ) (hside : side = "YES" ∨ side = "NO")
    (hqty : 0 < (if side = "YES" then pos.yes else pos.no).qty)
    (hcost : 0 ≤ (if side = "YES" then pos.yes else pos.no).cost)
    (ho0 : 0 ≤ opposite_avg) (ho1 : opposite_avg ≤ 1) (hq : 0 < q)
    (hpre : (if side = "YES" then pos.yes else pos.no).avg_price + opposite_avg
      < 98/100) :
    post_fill_avg (if side = "YES" then pos.yes else pos.no) q
      (calculate_target_price pos side opposite_avg) + opposite_avg < 98/100 := by
  have main : ∀ cur : Position, (if side = "YES" then pos.yes else pos.no) = cur →
      0 < cur.qty → 0 ≤ cur.cost → cur.avg_price + opposite_avg < 98/100 →
      post_fill_avg cur q ((98/100 - opposite_avg) * (95/100)) + opposite_avg
        < 98/100 := by
    intro cur _ hqty' hcost' hpre'
    rw [Position.avg_price, if_neg hqty'.ne'] at hpre'
    rw [post_fill_avg]
    exact target_price_margin_preserves cur.cost cur.qty opposite_avg q
      hqty' hcost' ho0 hq hpre'
  have hcalc : calculate_target_price pos side opposite_avg =
      (98/100 - opposite_avg) * (95/100) := by
    rcases hside with h | h <;> subst h
    · rw [calculate_target_price]
      simp only [if_pos (rfl : ("YES" : String) = "YES")] at hqty ⊢
      rw [if_neg hqty.ne']
    · rw [calculate_target_price]
      simp only [if_neg (show ¬("NO" : String) = "YES" by decide)] at hqty ⊢
      rw [if_neg hqty.ne']
  rw [hcalc]
  exact main _ rfl hqty hcost hpre

/-- Position used by the C2 counterexample: one YES share bought at 0.90,
empty NO side. -/
def pos_C2 : PairPosition := ⟨⟨1, 9/10⟩, ⟨0, 0⟩⟩

/-- C2 (counterexample): the YES side holds quantity 1 > 0 at average
0.90 and the opposite reference average 0.5 lies in [0,1] (it equals the
empty NO side's default average), yet filling quantity 1 at the price
returned by `calculate_target_price` leaves the post-fill YES average
plus 0.5 at 1.178 ≥ 0.98 — the admission invariant is violated and
`can_buy` itself would reject that very fill. -/
theorem C2_counterexample_margin_breaks_invariant :
    0 < pos_C2.yes.qty ∧ (0:ℚ) ≤ 1/2 ∧ ((1:ℚ)/2 ≤ 1) ∧
    ¬ (post_fill_avg pos_C2.yes 1 (calculate_target_price pos_C2 "YES" (1/2)) +
        1/2 < 98/100) ∧
    pos_C2.can_buy "YES" 1 (calculate_target_price pos_C2 "YES" (1/2)) =
      Except.ok false := by
  refine ⟨by norm_num [pos_C2], by norm_num, by norm_num, ?_, ?_⟩
  · norm_num [calculate_target_price, pos_C2, post_fill_avg]
  · norm_num [PairPosition.can_buy, can_buy_calc, calculate_target_price, pos_C2,
      str_upper_yes, Position.avg_price]

/-- Witness for C2 (amended) at a healthy position: YES holds quantity
100 at average 0.40, opposite average 0.5, pre-fill sum 0.90 < 0.98;
filling 50 more at the computed target price preserves the invariant. -/
theorem C2_witness :
    post_fill_avg ⟨100, 40⟩ 50
      (calculate_target_price ⟨⟨100, 40⟩, ⟨0, 0⟩⟩ "YES" (1/2)) + 1/2 < 98/100 := by
  have h := C2_target_price_preserves_invariant ⟨⟨100, 40⟩, ⟨0, 0⟩⟩ "YES" (1/2) 50
    (Or.inl rfl) (by norm_num) (by norm_num) (by norm_num) (by norm_num)
    (by norm_num) (by norm_num [Position.avg_price])
  simpa using h

/-- Position used by the C4 counterexample: hedged, one share each side,
YES average 0.60 and NO average 0.50, so pair cost 1.10 > 0.98. -/
def pos_C4 : PairPosition := ⟨⟨1, 3/5⟩, ⟨1, 1/2⟩⟩

/-- C4 (amended): for every hedged, non-profitable position whose
realized pair cost exceeds max_pair_cost, `check_stop_conditions` stops
with the pair-cost reason whenever an order-book snapshot is supplied. -/
theorem C4_pair_cost_stop_with_orderbook (cfg : RiskConfig) (st : RiskState)
    (pos : PairPosition) (ob : OrderBook) (met : Option ℚ) (now : ℚ)
    (hy : 0 < pos.yes.qty) (hn : 0 < pos.no.qty)
    (hp : pos.is_profitable = false)
    (hpc : cfg.max_pair_cost < pos.yes.avg_price + pos.no.avg_price) :
    (check_stop_conditions cfg st pos (some ob) met now).1 =
      ⟨true, some (StopReason.pair_cost_too_high
        (pos.yes.avg_price + pos.no.avg_price) cfg.max_pair_cost
        pos.yes.avg_price pos.no.avg_price)⟩ ∧
    (check_stop_conditions cfg st pos (some ob) met now).2 =
      ⟨none, none⟩ := by
  have hu : ¬((0 < pos.yes.qty ∧ ¬ 0 < pos.no.qty) ∨
      (0 < pos.no.qty ∧ ¬ 0 < pos.yes.qty)) := by
    rintro (⟨-, h⟩ | ⟨-, h⟩)
    · exact h hn
    · exact h hy
  unfold check_stop_conditions
  rw [if_neg (by rw [hp]; exact Bool.false_ne_true), if_neg hu]
  constructor
  · dsimp only
    rw [if_pos ⟨rfl, hy, hn⟩, if_pos hpc]
  · rfl

/-- C4 (counterexample): `pos_C4` is hedged, not profitable, and its
realized pair cost 1.10 exceeds the default max_pair_cost 0.98, yet with
no order-book snapshot supplied `check_stop_conditions` does not stop:
the pair-cost check is guarded by the presence of a snapshot. -/
theorem C4_counterexample_no_orderbook_skips_pair_cost :
    (0 < pos_C4.yes.qty ∧ 0 < pos_C4.no.qty ∧ pos_C4.is_profitable = false ∧
      default_risk_config.max_pair_cost <
        pos_C4.yes.avg_price + pos_C4.no.avg_price) ∧
    (check_stop_conditions default_risk_config ⟨none, none⟩ pos_C4 none none 0).1 =
      ⟨false, none⟩ := by
  constructor
  · refine ⟨by norm_num [pos_C4], by norm_num [pos_C4], ?_, ?_⟩
    · norm_num [pos_C4, PairPosition.is_profitable, PairPosition.min_qty,
        PairPosition.total_cost]
    · norm_num [pos_C4, default_risk_config, Position.avg_price]
  · norm_num [check_stop_conditions, pos_C4, default_risk_config,
      PairPosition.is_profitable, PairPosition.min_qty, PairPosition.total_cost,
      check_remaining, Position.avg_price]

/-- Witness for C4 (amended) at `pos_C4` with an (empty) order-book
snapshot supplied: the stop fires with the pair-cost reason. -/
theorem C4_witness :
    (check_stop_conditions default_risk_config ⟨none, none⟩ pos_C4
      (some ⟨[], [], [], []⟩) none 0).1 =
      ⟨true, some (StopReason.pair_cost_too_high
        (pos_C4.yes.avg_price + pos_C4.no.avg_price)
        default_risk_config.max_pair_cost
        pos_C4.yes.avg_price pos_C4.no.avg_price)⟩ :=
  (C4_pair_cost_stop_with_orderbook default_risk_config ⟨none, none⟩ pos_C4
    ⟨[], [], [], []⟩ none 0 (by norm_num [pos_C4]) (by norm_num [pos_C4])
    (by norm_num [pos_C4, PairPosition.is_profitable, PairPosition.min_qty,
      PairPosition.total_cost])
    (by norm_num [pos_C4, default_risk_config, Position.avg_price])).1

/-- When the capital cap is respected and the YES cost exceeds the window
cap, conditions 3-5 report the YES window-cap stop. -/
lemma check_remaining_yes_cap (cfg : RiskConfig) (pos : PairPosition)
    (met : Option ℚ) (now : ℚ)
    (hcap : pos.total_cost ≤ cfg.max_total_capital)
    (hy : cfg.max_pos_per_window < pos.yes.cost) :
    check_remaining cfg pos met now =
      ⟨true, some (StopReason.max_pos_exceeded "YES" pos.yes.cost
        cfg.max_pos_per_window)⟩ := by
  unfold check_remaining
  rw [if_neg (not_lt.mpr hcap), if_pos hy]

/-- When the capital cap is respected, the YES cost is within the window
cap and the NO cost exceeds it, conditions 3-5 report the NO window-cap
stop. -/
lemma check_remaining_no_cap (cfg : RiskConfig) (pos : PairPosition)
    (met : Option ℚ) (now : ℚ)
    (hcap : pos.total_cost ≤ cfg.max_total_capital)
    (hyin : pos.yes.cost ≤ cfg.max_pos_per_window)
    (hn : cfg.max_pos_per_window < pos.no.cost) :
    check_remaining cfg pos met now =
      ⟨true, some (StopReason.max_pos_exceeded "NO" pos.no.cost
        cfg.max_pos_per_window)⟩ := by
  unfold check_remaining
  rw [if_neg (not_lt.mpr hcap), if_neg (not_lt.mpr hyin), if_pos hn]

/-- C3 (amended): the per-side window cap defaults to 200 (not 300);
whenever no higher-priority condition fires — the position is not
profitable, any running unhedged clock is within max_unhedged_seconds,
the pair-cost condition does not hold, and total cost is within the
capital cap — a YES cost above max_pos_per_window stops citing YES
(whatever the NO side holds), and a NO cost above the cap with YES within
it stops citing NO; in particular with max_pos_per_window set to 300,
yes.cost = 310 and no.cost = 50 the stop fires citing YES and 310 > 300. -/
theorem C3_per_side_window_cap :
    default_risk_config.max_pos_per_window = 200 ∧
    (∀ (cfg : RiskConfig) (st : RiskState) (pos : PairPosition)
        (ob : Option OrderBook) (met : Option ℚ) (now : ℚ),
      pos.is_profitable = false →
      (∀ t0, (update_unhedged_clock st (if 0 < pos.yes.qty then "YES" else "NO")
          now).unhedged_start_time = some t0 → now - t0 ≤ cfg.max_unhedged_seconds) →
      (ob.isSome → 0 < pos.yes.qty → 0 < pos.no.qty →
        pos.yes.avg_price + pos.no.avg_price ≤ cfg.max_pair_cost) →
      pos.total_cost ≤ cfg.max_total_capital →
      cfg.max_pos_per_window < pos.yes.cost →
      (check_stop_conditions cfg st pos ob met now).1 =
        ⟨true, some (StopReason.max_pos_exceeded "YES" pos.yes.cost
          cfg.max_pos_per_window)⟩) ∧
    (∀ (cfg : RiskConfig) (st : RiskState) (pos : PairPosition)
        (ob : Option OrderBook) (met : Option ℚ) (now : ℚ),
      pos.is_profitable = false →
      (∀ t0, (update_unhedged_clock st (if 0 < pos.yes.qty then "YES" else "NO")
          now).unhedged_start_time = some t0 → now - t0 ≤ cfg.max_unhedged_seconds) →
      (ob.isSome → 0 < pos.yes.qty → 0 < pos.no.qty →
        pos.yes.avg_price + pos.no.avg_price ≤ cfg.max_pair_cost) →
      pos.total_cost ≤ cfg.max_total_capital →
      pos.yes.cost ≤ cfg.max_pos_per_window →
      cfg.max_pos_per_window < pos.no.cost →
      (check_stop_conditions cfg st pos ob met now).1 =
        ⟨true, some (StopReason.max_pos_exceeded "NO" pos.no.cost
          cfg.max_pos_per_window)⟩) ∧
    (check_stop_conditions { default_risk_config with max_pos_per_window := 300 }
        ⟨none, none⟩ ⟨⟨1000, 310⟩, ⟨200, 50⟩⟩ (some ⟨[], [], [], []⟩) none 0).1 =
      ⟨true, some (StopReason.max_pos_exceeded "YES" 310 300)⟩ := by
  have main : ∀ (cfg : RiskConfig) (st : RiskState) (pos : PairPosition)
      (ob : Option OrderBook) (met : Option ℚ) (now : ℚ),
      pos.is_profitable = false →
      (∀ t0, (update_unhedged_clock st (if 0 < pos.yes.qty then "YES" else "NO")
          now).unhedged_start_time = some t0 → now - t0 ≤ cfg.max_unhedged_seconds) →
      (ob.isSome → 0 < pos.yes.qty → 0 < pos.no.qty →
        pos.yes.avg_price + pos.no.avg_price ≤ cfg.max_pair_cost) →
      (check_stop_conditions cfg st pos ob met now).1 =
        check_remaining cfg pos met now := by
    intro cfg st pos ob met now hp hnt hnpc
    unfold check_stop_conditions
    rw [if_neg (by rw [hp]; exact Bool.false_ne_true)]
    by_cases hu : (0 < pos.yes.qty ∧ ¬ 0 < pos.no.qty) ∨
        (0 < pos.no.qty ∧ ¬ 0 < pos.yes.qty)
    · rw [if_pos hu]
      dsimp only
      cases hts : (update_unhedged_clock st
          (if 0 < pos.yes.qty then "YES" else "NO") now).unhedged_start_time with
      | none => rfl
      | some t0 =>
        dsimp only
        rw [if_neg (not_lt.mpr (hnt t0 hts))]
    · rw [if_neg hu]
      dsimp only
      by_cases hob : ob.isSome ∧ 0 < pos.yes.qty ∧ 0 < pos.no.qty
      · rw [if_pos hob, if_neg (not_lt.mpr (hnpc hob.1 hob.2.1 hob.2.2))]
      · rw [if_neg hob]
  refine ⟨by norm_num [default_risk_config], ?_, ?_, ?_⟩
  · intro cfg st pos ob met now hp hnt hnpc hcap hy
    rw [main cfg st pos ob met now hp hnt hnpc]
    exact check_remaining_yes_cap cfg pos met now hcap hy
  · intro cfg st pos ob met now hp hnt hnpc hcap hyin hn
    rw [main cfg st pos ob met now hp hnt hnpc]
    exact check_remaining_no_cap cfg pos met now hcap hyin hn
  · rw [main _ _ _ _ _ _
      (by norm_num [PairPosition.is_profitable, PairPosition.min_qty,
        PairPosition.total_cost])
      (by intro t0 h; simp [update_unhedged_clock] at h; subst h
          norm_num [default_risk_config])
      (by intro _ _ _; norm_num [Position.avg_price, default_risk_config])]
    exact check_remaining_yes_cap _ _ _ _
      (by norm_num [PairPosition.total_cost, default_risk_config])
      (by norm_num)

/-- C3 (counterexample): a RiskController built with all-default
arguments has max_pos_per_window = 200, not the claimed 300. -/
theorem C3_counterexample_default_cap :
    ¬ (default_risk_config.max_pos_per_window = 300) := by
  norm_num [default_risk_config]

/-- Witness for C3 (amended), spec scenario 4: max_pos_per_window = 300,
yes.cost = 310, no.cost = 50 — the stop cites YES and 310 > 300. -/
theorem C3_witness :
    (check_stop_conditions { default_risk_config with max_pos_per_window := 300 }
        ⟨none, none⟩ ⟨⟨1000, 310⟩, ⟨200, 50⟩⟩ (some ⟨[], [], [], []⟩) none 0).1 =
      ⟨true, some (StopReason.max_pos_exceeded "YES" 310 300)⟩ :=
  C3_per_side_window_cap.2.2.2

/-- C6: with an order-book snapshot available, `place_limit_order` on a
valid side returns no order and leaves the whole manager state (in
particular the position ledger) unchanged when there is no resting ask on
that side or when max_price is strictly below the best ask; otherwise it
returns an order created at the best ask price and resolved within the
same call to FILLED with filled quantity min(requested, best-ask resting
quantity), and the ledger side receives exactly that fill via
add_position. -/
theorem C6_place_limit_order_fill_or_reject (s : OrderManagerState)
    (api_ob : Option OrderBook) (ob : OrderBook) (side : String)
    (qty max_price : ℚ) (hob : s.current_orderbook = some ob)
    (hside : side = "YES" ∨ side = "NO") :
    (ob.get_best_ask side = none →
      place_limit_order s api_ob side qty max_price = (none, s)) ∧
    (∀ best_ask, ob.get_best_ask side = some best_ask →
      max_price < best_ask.price →
      place_limit_order s api_ob side qty max_price = (none, s)) ∧
    (∀ best_ask, ob.get_best_ask side = some best_ask →
      best_ask.price ≤ max_price →
      (place_limit_order s api_ob side qty max_price).1 =
        some { side := side, price := best_ask.price, qty := qty,
               status := OrderStatus.FILLED,
               filled_qty := min qty best_ask.qty,
               filled_price := best_ask.price } ∧
      (place_limit_order s api_ob side qty max_price).2.position =
        (if side = "YES" then
          { yes := s.position.yes.add_position (min qty best_ask.qty) best_ask.price,
            no := s.position.no }
         else
          { yes := s.position.yes,
            no := s.position.no.add_position (min qty best_ask.qty) best_ask.price })) := by
  have hsk : (if s.current_orderbook.isNone
      then { s with current_orderbook := api_ob } else s) = s := by
    rw [hob]
    rfl
  refine ⟨?_, ?_, ?_⟩
  · intro hba
    simp only [place_limit_order]
    rw [hsk, hob]
    dsimp only
    rw [hba]
  · intro best_ask hba hlt
    simp only [place_limit_order]
    rw [hsk, hob]
    dsimp only
    rw [hba]
    dsimp only
    rw [if_pos hlt]
  · intro best_ask hba hle
    simp only [place_limit_order]
    rw [hsk, hob]
    dsimp only
    rw [hba]
    dsimp only
    rw [if_neg (not_lt.mpr hle)]
    simp only [try_fill_order]
    rw [if_neg (by simp)]
    rw [hba]
    dsimp only
    rw [if_pos le_rfl]
    constructor
    · rfl
    · rcases hside with h | h <;> subst h <;> rfl

/-- Order book used by the C6 witness: best YES ask 0.42 (50 resting),
best NO ask 0.58. -/
def ob_C6 : OrderBook := ⟨[], [⟨42/100, 50⟩], [], [⟨58/100, 50⟩]⟩

/-- Manager state used by the C6 witness: empty ledger, cached `ob_C6`. -/
def om_C6 : OrderManagerState :=
  { position := ⟨⟨0, 0⟩, ⟨0, 0⟩⟩, pending_orders := [], filled_orders := [],
    trade_history := [], current_orderbook := some ob_C6 }

/-- Witness for C6 at spec scenario 5: place_limit_order("YES", 100,
0.40) when the best ask is 0.42 returns no order and leaves the state
(hence the ledger) unchanged. -/
theorem C6_witness :
    place_limit_order om_C6 none "YES" 100 (40/100) = (none, om_C6) :=
  (C6_place_limit_order_fill_or_reject om_C6 none ob_C6 "YES" 100 (40/100)
    rfl (Or.inl rfl)).2.1 ⟨42/100, 50⟩
    (by rw [get_best_ask_yes]; rfl) (by norm_num)

/-- C9 (amended): for a side whose case normalization is outside
{YES, NO}, `can_buy` raises (ValueError, modelled as `Except.error`),
while `place_limit_order` does not abort: it returns no order — the same
absent-result contract as NoLiquidity/PriceTooHigh/MissingOrderBook —
and leaves the position ledger unchanged. -/
theorem C9_invalid_side (side : String)
    (h1 : str_upper side ≠ "YES") (h2 : str_upper side ≠ "NO") :
    (∀ (p : PairPosition) (qty price : ℚ),
      p.can_buy side qty price = Except.error ("Invalid side: " ++ side)) ∧
    (∀ (s : OrderManagerState) (api_ob : Option OrderBook) (qty max_price : ℚ),
      (place_limit_order s api_ob side qty max_price).1 = none ∧
      (place_limit_order s api_ob side qty max_price).2.position = s.position) := by
  constructor
  · intro p qty price
    unfold PairPosition.can_buy
    rw [if_neg h1, if_neg h2]
  · intro s api_ob qty max_price
    simp only [place_limit_order]
    cases hco : (if s.current_orderbook.isNone
        then { s with current_orderbook := api_ob } else s).current_orderbook with
    | none =>
      constructor
      · rfl
      · split_ifs <;> rfl
    | some ob =>
      dsimp only
      rw [get_best_ask_other ob side h1 h2]
      constructor
      · rfl
      · split_ifs <;> rfl

/-- State used by the C9 counterexample: empty ledger and a cached
order book with resting asks on both real sides (so the absent result
below is not a NoLiquidity or MissingOrderBook outcome). -/
def om_C9 : OrderManagerState :=
  { position := ⟨⟨0, 0⟩, ⟨0, 0⟩⟩, pending_orders := [], filled_orders := [],
    trade_history := [], current_orderbook :=
      some ⟨[], [⟨42/100, 50⟩], [], [⟨58/100, 50⟩]⟩ }

/-- C9 (counterexample): called with the invalid side "MAYBE" — while a
snapshot with liquidity on both sides is cached — place_limit_order does
not abort; it returns no order and leaves the state unchanged, exactly
the absent-result contract the claim reserves for the recoverable
errors. -/
theorem C9_counterexample_invalid_side_returns_none :
    place_limit_order om_C9 none "MAYBE" 100 1 = (none, om_C9) ∧
    (∃ level, (⟨[], [⟨42/100, 50⟩], [], [⟨58/100, 50⟩]⟩ : OrderBook).get_best_ask
      "YES" = some level) ∧
    (∃ level, (⟨[], [⟨42/100, 50⟩], [], [⟨58/100, 50⟩]⟩ : OrderBook).get_best_ask
      "NO" = some level) := by
  refine ⟨?_, ⟨⟨42/100, 50⟩, by rw [get_best_ask_yes]; rfl⟩,
    ⟨⟨58/100, 50⟩, by rw [get_best_ask_no]; rfl⟩⟩
  have hgb : (⟨[], [⟨42/100, 50⟩], [], [⟨58/100, 50⟩]⟩ : OrderBook).get_best_ask
      "MAYBE" = none :=
    get_best_ask_other _ _ (by decide) (by decide)
  simp [place_limit_order, om_C9, hgb]

/-- Witness for C9 (amended) at side "MAYBE": can_buy errors out on the
empty pair position. -/
theorem C9_witness :
    (⟨⟨0, 0⟩, ⟨0, 0⟩⟩ : PairPosition).can_buy "MAYBE" 1 (1/2) =
      Except.error ("Invalid side: " ++ "MAYBE") :=
  (C9_invalid_side "MAYBE" (by decide) (by decide)).1 ⟨⟨0, 0⟩, ⟨0, 0⟩⟩ 1 (1/2)

/-- After a clock update the recorded unhedged side is the current one. -/
lemma update_clock_last (st : RiskState) (c : String) (now : ℚ) :
    (update_unhedged_clock st c now).last_unhedged_side = some c := by
  unfold update_unhedged_clock
  split_ifs with h1 h2
  · rfl
  · exact not_ne_iff.mp h1
  · exact not_ne_iff.mp h1

/-- After a clock update a start time is always recorded. -/
lemma update_clock_start_isSome (st : RiskState) (c : String) (now : ℚ) :
    (update_unhedged_clock st c now).unhedged_start_time ≠ none := by
  unfold update_unhedged_clock
  split_ifs with h1 h2
  · simp
  · simp
  · exact h2

/-- A state already carrying the current side and a running clock is a
fixed point of the clock update. -/
lemma update_clock_fixed (st : RiskState) (c : String) (now : ℚ)
    (hl : st.last_unhedged_side = some c)
    (hs : st.unhedged_start_time ≠ none) :
    update_unhedged_clock st c now = st := by
  unfold update_unhedged_clock
  rw [if_neg (by rw [hl]; exact not_ne_iff.mpr rfl), if_neg hs]

/-- Updating the clock twice for the same side at the same instant is the
same as updating it once. -/
lemma update_clock_idem (st : RiskState) (c : String) (now : ℚ) :
    update_unhedged_clock (update_unhedged_clock st c now) c now =
      update_unhedged_clock st c now :=
  update_clock_fixed _ c now (update_clock_last st c now)
    (update_clock_start_isSome st c now)

/-- On a side switch the clock restarts at the current instant. -/
lemma update_clock_flip (st : RiskState) (c : String) (now : ℚ)
    (h : st.last_unhedged_side ≠ some c) :
    update_unhedged_clock st c now = ⟨some now, some c⟩ := by
  unfold update_unhedged_clock
  rw [if_pos h]

/-- A position holding only YES (`no.qty = 0`) is never profitable. -/
lemma unhedged_yes_not_profitable (pos : PairPosition)
    (hy : 0 < pos.yes.qty) (hn : pos.no.qty = 0) :
    pos.is_profitable = false := by
  unfold PairPosition.is_profitable PairPosition.min_qty
  rw [hn, min_eq_right hy.le, if_pos rfl]

/-- A position holding only NO (`yes.qty = 0`) is never profitable. -/
lemma unhedged_no_not_profitable (pos : PairPosition)
    (hn : 0 < pos.no.qty) (hy : pos.yes.qty = 0) :
    pos.is_profitable = false := by
  unfold PairPosition.is_profitable PairPosition.min_qty
  rw [hy, min_eq_left hn.le, if_pos rfl]

/-- The controller state returned by `check_stop_conditions`: kept when
the position is profitable, updated through the unhedged clock when
exactly one side is held, cleared otherwise. -/
lemma check_snd (cfg : RiskConfig) (st : RiskState) (pos : PairPosition)
    (ob : Option OrderBook) (met : Option ℚ) (now : ℚ) :
    (check_stop_conditions cfg st pos ob met now).2 =
      if pos.is_profitable then st
      else if (0 < pos.yes.qty ∧ ¬ 0 < pos.no.qty) ∨
          (0 < pos.no.qty ∧ ¬ 0 < pos.yes.qty) then
        update_unhedged_clock st (if 0 < pos.yes.qty then "YES" else "NO") now
      else ⟨none, none⟩ := by
  unfold check_stop_conditions
  split_ifs <;> rfl

/-- A position unhedged on either side (exactly one positive quantity,
the other zero) is never profitable. -/
lemma unhedged_not_profitable (pos : PairPosition)
    (h : (0 < pos.yes.qty ∧ pos.no.qty = 0) ∨
      (0 < pos.no.qty ∧ pos.yes.qty = 0)) :
    pos.is_profitable = false := by
  rcases h with ⟨hy, hn⟩ | ⟨hn, hy⟩
  · exact unhedged_yes_not_profitable pos hy hn
  · exact unhedged_no_not_profitable pos hn hy

/-- A position unhedged on either side satisfies the source's
one-side-held test. -/
lemma unhedged_cond (pos : PairPosition)
    (h : (0 < pos.yes.qty ∧ pos.no.qty = 0) ∨
      (0 < pos.no.qty ∧ pos.yes.qty = 0)) :
    (0 < pos.yes.qty ∧ ¬ 0 < pos.no.qty) ∨
      (0 < pos.no.qty ∧ ¬ 0 < pos.yes.qty) := by
  rcases h with ⟨hy, hn⟩ | ⟨hn, hy⟩
  · exact Or.inl ⟨hy, by rw [hn]; exact lt_irrefl 0⟩
  · exact Or.inr ⟨hn, by rw [hy]; exact lt_irrefl 0⟩

/-- State outcome of a check on a position unhedged on either side: the
clock is updated for the currently held side. -/
lemma check_snd_unhedged (cfg : RiskConfig) (st : RiskState)
    (pos : PairPosition) (ob : Option OrderBook) (met : Option ℚ) (now : ℚ)
    (h : (0 < pos.yes.qty ∧ pos.no.qty = 0) ∨
      (0 < pos.no.qty ∧ pos.yes.qty = 0)) :
    (check_stop_conditions cfg st pos ob met now).2 =
      update_unhedged_clock st (if 0 < pos.yes.qty then "YES" else "NO") now := by
  rw [check_snd]
  rw [if_neg (by rw [unhedged_not_profitable pos h]; exact Bool.false_ne_true)]
  rw [if_pos (unhedged_cond pos h)]

/-- Result of a check on a position unhedged on either side, as a
function of the updated clock for the currently held side. -/
lemma check_fst_unhedged (cfg : RiskConfig) (st : RiskState)
    (pos : PairPosition) (ob : Option OrderBook) (met : Option ℚ) (now : ℚ)
    (h : (0 < pos.yes.qty ∧ pos.no.qty = 0) ∨
      (0 < pos.no.qty ∧ pos.yes.qty = 0)) :
    (check_stop_conditions cfg st pos ob met now).1 =
      (match (update_unhedged_clock st (if 0 < pos.yes.qty then "YES" else "NO")
          now).unhedged_start_time with
       | some t0 =>
         if cfg.max_unhedged_seconds < now - t0 then
           ⟨true, some (StopReason.unhedged_timeout
             (if 0 < pos.yes.qty then "YES" else "NO") (now - t0)
             cfg.max_unhedged_seconds)⟩
         else check_remaining cfg pos met now
       | none => check_remaining cfg pos met now) := by
  unfold check_stop_conditions
  rw [if_neg (by rw [unhedged_not_profitable pos h]; exact Bool.false_ne_true)]
  rw [if_pos (unhedged_cond pos h)]

/-- Conditions 3-5 never report an unhedged timeout. -/
lemma check_remaining_no_timeout (cfg : RiskConfig) (pos : PairPosition)
    (met : Option ℚ) (now : ℚ) (s : String) (d m : ℚ) :
    (check_remaining cfg pos met now).reason ≠
      some (StopReason.unhedged_timeout s d m) := by
  rcases met with - | e <;> unfold check_remaining <;> dsimp only <;>
    split_ifs <;> simp

/-- C7: across two consecutive checks on positions unhedged on opposite
sides — in either order, YES then NO or NO then YES — the clock after the
second call starts exactly at the second call's time with the second
call's side (whatever ran before), and any unhedged-timeout reason the
second call could report carries duration 0: no time accumulated on the
previous side is ever counted. -/
theorem C7_side_flip_restarts_clock (cfg : RiskConfig) (st0 : RiskState)
    (pos1 pos2 : PairPosition) (ob1 ob2 : Option OrderBook)
    (met1 met2 : Option ℚ) (t1 t2 : ℚ)
    (h1 : (0 < pos1.yes.qty ∧ pos1.no.qty = 0) ∨
      (0 < pos1.no.qty ∧ pos1.yes.qty = 0))
    (h2 : (0 < pos2.yes.qty ∧ pos2.no.qty = 0) ∨
      (0 < pos2.no.qty ∧ pos2.yes.qty = 0))
    (hflip : (if 0 < pos1.yes.qty then "YES" else "NO") ≠
      (if 0 < pos2.yes.qty then "YES" else "NO")) :
    (check_stop_conditions cfg (check_stop_conditions cfg st0 pos1 ob1 met1 t1).2
        pos2 ob2 met2 t2).2 =
      ⟨some t2, some (if 0 < pos2.yes.qty then "YES" else "NO")⟩ ∧
    (∀ s d m, (check_stop_conditions cfg
        (check_stop_conditions cfg st0 pos1 ob1 met1 t1).2
        pos2 ob2 met2 t2).1.reason =
          some (StopReason.unhedged_timeout s d m) → d = 0) := by
  have hst1 : (check_stop_conditions cfg st0 pos1 ob1 met1 t1).2 =
      update_unhedged_clock st0 (if 0 < pos1.yes.qty then "YES" else "NO") t1 :=
    check_snd_unhedged cfg st0 pos1 ob1 met1 t1 h1
  have hflip2 : update_unhedged_clock
      (update_unhedged_clock st0 (if 0 < pos1.yes.qty then "YES" else "NO") t1)
      (if 0 < pos2.yes.qty then "YES" else "NO") t2 =
      ⟨some t2, some (if 0 < pos2.yes.qty then "YES" else "NO")⟩ :=
    update_clock_flip _ _ t2 (by rw [update_clock_last]; simpa using hflip)
  constructor
  · rw [check_snd_unhedged cfg _ pos2 ob2 met2 t2 h2, hst1, hflip2]
  · intro s d m hr
    rw [check_fst_unhedged cfg _ pos2 ob2 met2 t2 h2, hst1, hflip2] at hr
    dsimp only at hr
    split_ifs at hr <;>
      first
        | exact absurd hr (check_remaining_no_timeout cfg pos2 met2 t2 s d m)
        | (simp only [Option.some.injEq, StopReason.unhedged_timeout.injEq] at hr
           rw [← hr.2.1]
           ring)

/-- Witness for C7: YES-only at t=0, then NO-only at t=5 — after the
second call the clock reads exactly t=5 with side NO. -/
theorem C7_witness :
    (check_stop_conditions default_risk_config
      (check_stop_conditions default_risk_config ⟨none, none⟩
        ⟨⟨1, 1/2⟩, ⟨0, 0⟩⟩ none none 0).2
      ⟨⟨0, 0⟩, ⟨1, 1/2⟩⟩ none none 5).2 = ⟨some 5, some "NO"⟩ := by
  have h := (C7_side_flip_restarts_clock default_risk_config ⟨none, none⟩
    ⟨⟨1, 1/2⟩, ⟨0, 0⟩⟩ ⟨⟨0, 0⟩, ⟨1, 1/2⟩⟩ none none none none 0 5
    (Or.inl ⟨by norm_num, rfl⟩) (Or.inr ⟨by norm_num, rfl⟩)
    (by norm_num
        decide)).1
  simpa using h

/-- C8: re-running `check_stop_conditions` on the state produced by a
first run, with the configuration, position, order book, settlement time
and clock reading unchanged, returns the identical result pair — the same
StopConditionResult and no further mutation of unhedged_start_time or
last_unhedged_side. -/
theorem C8_check_idempotent (cfg : RiskConfig) (st : RiskState)
    (pos : PairPosition) (ob : Option OrderBook) (met : Option ℚ) (now : ℚ) :
    check_stop_conditions cfg (check_stop_conditions cfg st pos ob met now).2
        pos ob met now = check_stop_conditions cfg st pos ob met now := by
  by_cases hp : pos.is_profitable = true
  · have h2 : (check_stop_conditions cfg st pos ob met now).2 = st := by
      rw [check_snd, if_pos hp]
    rw [h2]
  · by_cases hu : (0 < pos.yes.qty ∧ ¬ 0 < pos.no.qty) ∨
        (0 < pos.no.qty ∧ ¬ 0 < pos.yes.qty)
    · have h2 : (check_stop_conditions cfg st pos ob met now).2 =
          update_unhedged_clock st (if 0 < pos.yes.qty then "YES" else "NO") now := by
        rw [check_snd, if_neg hp, if_pos hu]
      rw [h2]
      unfold check_stop_conditions
      rw [if_neg hp, if_neg hp, if_pos hu, if_pos hu]
      dsimp only
      rw [update_clock_idem]
    · have h2 : (check_stop_conditions cfg st pos ob met now).2 =
          ⟨none, none⟩ := by
        rw [check_snd, if_neg hp, if_neg hu]
      rw [h2]
      unfold check_stop_conditions
      rw [if_neg hp, if_neg hp, if_neg hu, if_neg hu]
